import Mathlib

/-!
Verification of apps/ml-service/main.py, the placeholder ML service of the
AI-Career-Coach repository. The service exposes two handlers: read_root,
which returns a fixed status message, and predict_salary, which computes a
dummy salary estimate from the length of the skills value in the request
body. Python values appearing in request and response bodies are embedded
as PyVal; a Python dictionary is an association list looked up by first
matching key.
-/

/-- A Python/JSON value as it can appear in a request or response body. -/
inductive PyVal : Type where
  | none : PyVal
  | bool : Bool → PyVal
  | int : Int → PyVal
  | str : String → PyVal
  | list : List PyVal → PyVal
  | dict : List (String × PyVal) → PyVal

/-- Python dict.get with a default: the value stored at the key, or the
default when the key is absent. -/
def dictGet (data : List (String × PyVal)) (key : String) (dflt : PyVal) : PyVal :=
  match data.find? (fun p => p.1 == key) with
  | some p => p.2
  | Option.none => dflt

/-- Python len(): the length of a sequence, a string or a mapping; values
with no length, such as integers or None, raise TypeError, modelled as
Option.none. -/
def pyLen : PyVal → Option Nat
  | PyVal.str s => some s.length
  | PyVal.list xs => some xs.length
  | PyVal.dict kvs => some kvs.length
  | _ => Option.none

/-- Handler of GET /, main.py lines 7 to 9. -/
def read_root : PyVal :=
  PyVal.dict [("message", PyVal.str "ML Service is running!")]

/-- Handler of POST /api/predict-salary, main.py lines 11 to 17. Reads the
skills value, defaulting to the empty list, takes its length, and returns
the dummy estimate; a skills value with no length raises TypeError, so the
handler is embedded as Except. -/
def predict_salary (data : List (String × PyVal)) : Except String PyVal :=
  let skills := dictGet data "skills" (PyVal.list [])
  match pyLen skills with
  | some n =>
      let base_salary : Int := 50000
      let bonus : Int := (n : Int) * 1000
      Except.ok (PyVal.dict [("predicted_salary", PyVal.int (base_salary + bonus))])
  | Option.none => Except.error "TypeError: object has no len()"

/-- The mutable state of the service process. main.py defines no
module-level mutable data besides the route table built once at import
time, so the state record carries nothing. -/
structure ServerState where

/-- read_root as a transformer of the process state, making explicit that
the handler does not touch it. -/
def handleRoot (s : ServerState) : ServerState × PyVal :=
  (s, read_root)

/-- predict_salary as a transformer of the process state and the request
body, making explicit that the handler only reads the body. -/
def handlePredict (s : ServerState) (data : List (String × PyVal)) :
    ServerState × List (String × PyVal) × Except String PyVal :=
  (s, data, predict_salary data)

/-- C1: for every request body whose skills value is a sequence, the
handler returns the single-field mapping with predicted_salary equal to
50000 plus 1000 times the number of elements of skills. -/
theorem predict_salary_list_formula (data : List (String × PyVal)) (xs : List PyVal)
    (h : dictGet data "skills" (PyVal.list []) = PyVal.list xs) :
    predict_salary data =
      Except.ok (PyVal.dict
        [("predicted_salary", PyVal.int (50000 + 1000 * (xs.length : Int)))]) := by
  simp [predict_salary, h, pyLen]
  ring

/-- Witness for C1 at skills equal to the one-element list containing the
string "python": the predicted salary is 51000. -/
theorem predict_salary_list_formula_witness :
    predict_salary [("skills", PyVal.list [PyVal.str "python"])] =
      Except.ok (PyVal.dict [("predicted_salary", PyVal.int 51000)]) := by
  have h := predict_salary_list_formula [("skills", PyVal.list [PyVal.str "python"])]
    [PyVal.str "python"] (by rfl)
  simpa using h

/-- C2: the root handler returns exactly the fixed status mapping whatever
the state of the process, and leaves that state unchanged. -/
theorem read_root_fixed_response (s : ServerState) :
    handleRoot s = (s, PyVal.dict [("message", PyVal.str "ML Service is running!")]) := by
  rfl

/-- C3: a request body with no skills key is treated as if skills were the
empty sequence, and the predicted salary is 50000. -/
theorem predict_salary_missing_skills (data : List (String × PyVal))
    (h : data.find? (fun p => p.1 == "skills") = Option.none) :
    predict_salary data =
      Except.ok (PyVal.dict [("predicted_salary", PyVal.int 50000)]) := by
  simp [predict_salary, dictGet, h, pyLen]

/-- Witness for C3 at a body holding only an experience field: the skills
key is absent and the predicted salary is 50000. -/
theorem predict_salary_missing_skills_witness :
    predict_salary [("experience", PyVal.int 3)] =
      Except.ok (PyVal.dict [("predicted_salary", PyVal.int 50000)]) :=
  predict_salary_missing_skills [("experience", PyVal.int 3)] (by rfl)

/-- C4: the contents of the skills elements never influence the result;
two bodies whose skills values are sequences of equal length get the same
response. -/
theorem predict_salary_content_independent (d1 d2 : List (String × PyVal))
    (xs ys : List PyVal)
    (h1 : dictGet d1 "skills" (PyVal.list []) = PyVal.list xs)
    (h2 : dictGet d2 "skills" (PyVal.list []) = PyVal.list ys)
    (hlen : xs.length = ys.length) :
    predict_salary d1 = predict_salary d2 := by
  simp [predict_salary, h1, h2, pyLen, hlen]

/-- Witness for C4 at two one-element skills lists holding an integer and
a string respectively: the responses coincide. -/
theorem predict_salary_content_independent_witness :
    predict_salary [("skills", PyVal.list [PyVal.int 1])] =
      predict_salary [("skills", PyVal.list [PyVal.str "x"])] :=
  predict_salary_content_independent
    [("skills", PyVal.list [PyVal.int 1])]
    [("skills", PyVal.list [PyVal.str "x"])]
    [PyVal.int 1] [PyVal.str "x"] (by rfl) (by rfl) (by rfl)

/-- C5: the predicted salary is an exact integer: for a skills sequence of
length n the response field is the integer image of the natural number
50000 + 1000 * n, which in particular is nonnegative, with no rounding and
no wraparound for any n. -/
theorem predict_salary_exact_integer (data : List (String × PyVal))
    (xs : List PyVal) (n : Nat)
    (h : dictGet data "skills" (PyVal.list []) = PyVal.list xs)
    (hn : xs.length = n) :
    predict_salary data =
      Except.ok (PyVal.dict
        [("predicted_salary", PyVal.int ((50000 + 1000 * n : Nat) : Int))]) ∧
    (0 : Int) ≤ ((50000 + 1000 * n : Nat) : Int) := by
  constructor
  · simp [predict_salary, h, pyLen, hn]
    ring
  · exact Int.natCast_nonneg _

/-- Witness for C5 at a four-element skills list: the predicted salary is
the exact integer 54000. -/
theorem predict_salary_exact_integer_witness :
    predict_salary
        [("skills", PyVal.list [PyVal.str "a", PyVal.str "b", PyVal.str "c", PyVal.str "d"])] =
      Except.ok (PyVal.dict [("predicted_salary", PyVal.int 54000)]) := by
  have h := predict_salary_exact_integer
    [("skills", PyVal.list [PyVal.str "a", PyVal.str "b", PyVal.str "c", PyVal.str "d"])]
    [PyVal.str "a", PyVal.str "b", PyVal.str "c", PyVal.str "d"] 4 (by rfl) (by rfl)
  simpa using h.1

/-- C6: both handlers are deterministic and idempotent: issuing the same
request any number of times yields the same list of identical responses,
and the root handler's answer never varies. -/
theorem handlers_deterministic_idempotent (data : List (String × PyVal)) (k : Nat) :
    (List.replicate k data).map predict_salary =
      List.replicate k (predict_salary data) ∧
    (List.replicate k ()).map (fun _ => read_root) = List.replicate k read_root := by
  constructor <;> simp [List.map_replicate]

/-- C7: neither handler has side effects: viewed as transformers of the
process state and the request body, both return the state unchanged and
predict_salary returns the body it was given unmodified. -/
theorem handlers_no_side_effects (s : ServerState) (data : List (String × PyVal)) :
    (handleRoot s).1 = s ∧
    (handlePredict s data).1 = s ∧
    (handlePredict s data).2.1 = data :=
  ⟨rfl, rfl, rfl⟩

/-- C8: when the skills key is present with a non-sequence value, the
handler fails if and only if the value supports no length; a value with a
length, such as a string or a mapping, is instead counted and priced at
1000 per unit. Strings are measured by character count, mappings by number
of keys, while integers and None have no length. -/
theorem predict_salary_nonsequence_skills (data : List (String × PyVal)) (v : PyVal)
    (h : data.find? (fun p => p.1 == "skills") = some ("skills", v)) :
    ((∃ e, predict_salary data = Except.error e) ↔ pyLen v = Option.none) ∧
    (∀ n, pyLen v = some n →
      predict_salary data =
        Except.ok (PyVal.dict
          [("predicted_salary", PyVal.int (50000 + 1000 * (n : Int)))])) ∧
    (∀ s, pyLen (PyVal.str s) = some s.length) ∧
    (∀ kvs, pyLen (PyVal.dict kvs) = some kvs.length) ∧
    (∀ i, pyLen (PyVal.int i) = Option.none) ∧
    pyLen PyVal.none = Option.none := by
  have hget : dictGet data "skills" (PyVal.list []) = v := by
    simp [dictGet, h]
  refine ⟨?_, ?_, fun s => rfl, fun kvs => rfl, fun i => rfl, rfl⟩
  · cases hv : pyLen v with
    | none => simp [predict_salary, hget, hv]
    | some n => simp [predict_salary, hget, hv]
  · intro n hn
    simp [predict_salary, hget, hn]
    ring

/-- Witness for C8 at skills equal to the string "abc": the handler does
not fail and returns 53000, a thousand per character. -/
theorem predict_salary_nonsequence_skills_witness :
    predict_salary [("skills", PyVal.str "abc")] =
      Except.ok (PyVal.dict [("predicted_salary", PyVal.int 53000)]) := by
  have h := predict_salary_nonsequence_skills [("skills", PyVal.str "abc")]
    (PyVal.str "abc") (by rfl)
  have h3 := h.2.1 3 (by rfl)
  simpa using h3

/-- C9: the predicted salary is bounded below by 50000 and adding one
skill adds exactly 1000: for a body whose skills list is xs and another
whose skills list is xs with one element appended, both succeed, the first
result is at least 50000 and the second exceeds it by exactly 1000. -/
theorem predict_salary_monotone_bounded (d1 d2 : List (String × PyVal))
    (xs : List PyVal) (x : PyVal)
    (h1 : dictGet d1 "skills" (PyVal.list []) = PyVal.list xs)
    (h2 : dictGet d2 "skills" (PyVal.list []) = PyVal.list (xs ++ [x])) :
    ∃ r1 r2 : Int,
      predict_salary d1 = Except.ok (PyVal.dict [("predicted_salary", PyVal.int r1)]) ∧
      predict_salary d2 = Except.ok (PyVal.dict [("predicted_salary", PyVal.int r2)]) ∧
      50000 ≤ r1 ∧ r2 = r1 + 1000 := by
  refine ⟨50000 + (xs.length : Int) * 1000,
    50000 + ((xs ++ [x]).length : Int) * 1000, ?_, ?_, ?_, ?_⟩
  · simp [predict_salary, h1, pyLen]
  · simp [predict_salary, h2, pyLen]
  · have hnn : (0 : Int) ≤ (xs.length : Int) := Int.natCast_nonneg _
    nlinarith
  · push_cast [List.length_append, List.length_singleton]
    ring

/-- Witness for C9 at the empty skills list and the singleton list: the
salaries are 50000 and 51000. -/
theorem predict_salary_monotone_bounded_witness :
    ∃ r1 r2 : Int,
      predict_salary [("skills", PyVal.list [])] =
        Except.ok (PyVal.dict [("predicted_salary", PyVal.int r1)]) ∧
      predict_salary [("skills", PyVal.list [PyVal.str "go"])] =
        Except.ok (PyVal.dict [("predicted_salary", PyVal.int r2)]) ∧
      50000 ≤ r1 ∧ r2 = r1 + 1000 :=
  predict_salary_monotone_bounded
    [("skills", PyVal.list [])] [("skills", PyVal.list [PyVal.str "go"])]
    [] (PyVal.str "go") (by rfl) (by rfl)

/-- C10: all fields other than skills are ignored: two bodies that give
the same value for the skills lookup, including both lacking the key, get
identical responses whatever other keys they hold. -/
theorem predict_salary_ignores_other_fields (d1 d2 : List (String × PyVal))
    (h : dictGet d1 "skills" (PyVal.list []) = dictGet d2 "skills" (PyVal.list [])) :
    predict_salary d1 = predict_salary d2 := by
  simp [predict_salary, h]

/-- Witness for C10: adding age and name fields next to the same skills
list leaves the response unchanged. -/
theorem predict_salary_ignores_other_fields_witness :
    predict_salary
        [("skills", PyVal.list [PyVal.int 1]), ("age", PyVal.int 30),
         ("name", PyVal.str "b")] =
      predict_salary [("skills", PyVal.list [PyVal.int 1])] :=
  predict_salary_ignores_other_fields
    [("skills", PyVal.list [PyVal.int 1]), ("age", PyVal.int 30),
     ("name", PyVal.str "b")]
    [("skills", PyVal.list [PyVal.int 1])] (by rfl)
